import Mathlib

/-!
Shallow embedding of src/picostuff/picobutton.cpp (two-player LED +
spacebar HID for Raspberry Pi Pico).

Digital levels are `Level`, LED behaviour modes are `LedMode`, and the
per-player state `PlayerLed` mirrors the C++ `struct PlayerLed` (the
constant `pin` field is externalised: output writes are reported as
explicit write lists, tagged with a `Pin` at the loop level).  The
Arduino `unsigned long` clock arithmetic is modelled as `Nat` with
wrap-around subtraction `usub` modulo `2 ^ 32`.  Functions that write to
pins return the list of levels written during the call.
-/

namespace PicoButton

/-- Digital pin level, `LOW` / `HIGH` in the Arduino API. -/
inductive Level where
  | Low : Level
  | High : Level
deriving DecidableEq, Repr

/-- Output pins written by the program: the two player LEDs
(`P1_LED_PIN` = 16, `P2_LED_PIN` = 17), the onboard LED (`PI_LED`) and
the button mirror LED (`BUTTON_LED` = 19). -/
inductive Pin where
  | P1_LED : Pin
  | P2_LED : Pin
  | PI_LED : Pin
  | BUTTON_LED : Pin
deriving DecidableEq, Repr

/-- The `enum LedMode` of the source (picobutton.cpp lines 13-19). -/
inductive LedMode where
  | OFF_MODE : LedMode
  | SOLID_ON : LedMode
  | BLINK_1HZ : LedMode
  | BLINK_2HZ : LedMode
  | BLINK_4HZ : LedMode
deriving DecidableEq, Repr

/-- The `struct PlayerLed` of the source (lines 21-26), minus the
constant `pin` handle.  Defaults in the source: `mode = OFF_MODE`,
`lastToggleMs = 0`, `currentLevel = LOW`. -/
structure PlayerLed where
  mode : LedMode
  lastToggleMs : Nat
  currentLevel : Level
deriving DecidableEq, Repr

/-- Modulus of the Arduino `unsigned long` type (32-bit on the Pico). -/
def U32 : Nat := 2 ^ 32

/-- Wrap-around subtraction of `unsigned long` values: `a - b` computed
modulo `2 ^ 32`, as the C expression `now - pl.lastToggleMs` does. -/
def usub (a b : Nat) : Nat := (a % U32 + (U32 - b % U32)) % U32

/-- Source `modeToInterval` (lines 31-38): period in ms between toggles for the
blink modes; `0` for `OFF_MODE` / `SOLID_ON`. -/
def modeToInterval : LedMode → Nat
  | LedMode.BLINK_1HZ => 500
  | LedMode.BLINK_2HZ => 250
  | LedMode.BLINK_4HZ => 125
  | _ => 0

/-- The level flip performed by `updateBlink` line 57:
`(currentLevel == LOW) ? HIGH : LOW`. -/
def flip (l : Level) : Level :=
  if l = Level.Low then Level.High else Level.Low

/-- Source `applyModeImmediate` (lines 40-51).  `nowMs` is the value returned
by the `millis()` call on line 50.  For `OFF_MODE` / `SOLID_ON` the
level is set and written to the pin; for blink modes the level is left
as-is and nothing is written; in all cases `lastToggleMs` is reset.
Returns the updated state and the levels written to the player's pin. -/
def applyModeImmediate (pl : PlayerLed) (nowMs : Nat) : PlayerLed × List Level :=
  if pl.mode = LedMode.OFF_MODE then
    ({ pl with currentLevel := Level.Low, lastToggleMs := nowMs }, [Level.Low])
  else if pl.mode = LedMode.SOLID_ON then
    ({ pl with currentLevel := Level.High, lastToggleMs := nowMs }, [Level.High])
  else
    ({ pl with lastToggleMs := nowMs }, [])

/-- A mode-change command as issued by the `loop` switch (lines 112-128):
assign `pl.mode = m;` then call `applyModeImmediate(pl)`. -/
def setMode (pl : PlayerLed) (m : LedMode) (nowMs : Nat) : PlayerLed × List Level :=
  applyModeImmediate { pl with mode := m } nowMs

/-- Source `updateBlink` (lines 53-63): in a blink mode, if the wrapped elapsed
time `now - lastToggleMs` has reached the mode's interval, flip the
level, write it to the pin, and record `now` as the last toggle time;
otherwise (and in `OFF_MODE` / `SOLID_ON`) do nothing. -/
def updateBlink (pl : PlayerLed) (now : Nat) : PlayerLed × List Level :=
  if pl.mode = LedMode.BLINK_1HZ ∨ pl.mode = LedMode.BLINK_2HZ ∨
      pl.mode = LedMode.BLINK_4HZ then
    let interval := modeToInterval pl.mode
    if usub now pl.lastToggleMs ≥ interval then
      let newLevel := if pl.currentLevel = Level.Low then Level.High else Level.Low
      ({ pl with currentLevel := newLevel, lastToggleMs := now }, [newLevel])
    else
      (pl, [])
  else
    (pl, [])

/-- A sequence of `updateBlink` calls on one player, collecting all
levels written across the calls. -/
def runTicks (pl : PlayerLed) (nows : List Nat) : PlayerLed × List Level :=
  match nows with
  | [] => (pl, [])
  | n :: rest =>
      let r := updateBlink pl n
      let r2 := runTicks r.1 rest
      (r2.1, r.2 ++ r2.2)

/-- Mirroring of the raw button sample onto `BUTTON_LED`
(lines 90-94): `HIGH` writes `HIGH`, otherwise `LOW`. -/
def mirrorWrite (state : Level) : Level :=
  if state = Level.High then Level.High else Level.Low

/-- The press-edge test of line 97: `state == HIGH && lastState == LOW`. -/
def pressEdge (state lastState : Level) : Bool :=
  state == Level.High && lastState == Level.Low

/-- The per-iteration edge outputs produced by running the button-edge
logic over a list of raw samples, starting from a given stored previous
sample (`lastState` is updated to the raw sample each iteration,
line 105). -/
def edgeScan (lastState : Level) : List Level → List Bool
  | [] => []
  | r :: rest => pressEdge r lastState :: edgeScan r rest

/-- Initial value of the global `lastState` (line 11: `int lastState = HIGH;`). -/
def initialLastState : Level := Level.High

/-- The mutable global state of the sketch: the two players' LED states
and the stored previous button sample. -/
structure SysState where
  p1 : PlayerLed
  p2 : PlayerLed
  lastState : Level
deriving DecidableEq, Repr

/-- The `switch (c)` of `loop` (lines 110-131): dispatch one command
byte, returning the updated system state and the pin writes performed.
`nowMs` is the `millis()` reading used by the `applyModeImmediate`
call(s) inside the switch.  Unknown bytes hit the `default` arm and are
ignored. -/
def handleCommand (s : SysState) (c : Char) (nowMs : Nat) : SysState × List (Pin × Level) :=
  if c = 'A' then
    let r := setMode s.p1 LedMode.SOLID_ON nowMs
    ({ s with p1 := r.1 }, r.2.map (fun l => (Pin.P1_LED, l)))
  else if c = 'a' then
    let r := setMode s.p1 LedMode.OFF_MODE nowMs
    ({ s with p1 := r.1 }, r.2.map (fun l => (Pin.P1_LED, l)))
  else if c = 'B' then
    let r := setMode s.p2 LedMode.SOLID_ON nowMs
    ({ s with p2 := r.1 }, r.2.map (fun l => (Pin.P2_LED, l)))
  else if c = 'b' then
    let r := setMode s.p2 LedMode.OFF_MODE nowMs
    ({ s with p2 := r.1 }, r.2.map (fun l => (Pin.P2_LED, l)))
  else if c = 'Y' then
    let r1 := setMode s.p1 LedMode.SOLID_ON nowMs
    let r2 := setMode s.p2 LedMode.SOLID_ON nowMs
    ({ s with p1 := r1.1, p2 := r2.1 },
      r1.2.map (fun l => (Pin.P1_LED, l)) ++ r2.2.map (fun l => (Pin.P2_LED, l)))
  else if c = 'X' then
    let r1 := setMode s.p1 LedMode.OFF_MODE nowMs
    let r2 := setMode s.p2 LedMode.OFF_MODE nowMs
    ({ s with p1 := r1.1, p2 := r2.1 },
      r1.2.map (fun l => (Pin.P1_LED, l)) ++ r2.2.map (fun l => (Pin.P2_LED, l)))
  else if c = '1' then
    let r := setMode s.p1 LedMode.BLINK_1HZ nowMs
    ({ s with p1 := r.1 }, r.2.map (fun l => (Pin.P1_LED, l)))
  else if c = '2' then
    let r := setMode s.p1 LedMode.BLINK_2HZ nowMs
    ({ s with p1 := r.1 }, r.2.map (fun l => (Pin.P1_LED, l)))
  else if c = '3' then
    let r := setMode s.p1 LedMode.BLINK_4HZ nowMs
    ({ s with p1 := r.1 }, r.2.map (fun l => (Pin.P1_LED, l)))
  else if c = '4' then
    let r := setMode s.p2 LedMode.BLINK_1HZ nowMs
    ({ s with p2 := r.1 }, r.2.map (fun l => (Pin.P2_LED, l)))
  else if c = '5' then
    let r := setMode s.p2 LedMode.BLINK_2HZ nowMs
    ({ s with p2 := r.1 }, r.2.map (fun l => (Pin.P2_LED, l)))
  else if c = '6' then
    let r := setMode s.p2 LedMode.BLINK_4HZ nowMs
    ({ s with p2 := r.1 }, r.2.map (fun l => (Pin.P2_LED, l)))
  else
    (s, [])

/-- The recognized command bytes of the switch table. -/
def commandTable : List Char :=
  ['A', 'a', 'B', 'b', 'Y', 'X', '1', '2', '3', '4', '5', '6']

/-- External inputs consumed by one `loop` iteration: the `millis()`
reading at line 86, the raw button sample at line 87, the `millis()`
reading taken inside `applyModeImmediate` if a command is processed, and
the bytes currently buffered on the serial channel. -/
structure LoopIn where
  now : Nat
  raw : Level
  nowCmd : Nat
  serial : List Char
deriving DecidableEq, Repr

/-- Observable outcome of one `loop` iteration: the new global state,
the serial bytes still unread, the pin writes in program order, and
whether the spacebar press was emitted. -/
structure LoopOut where
  state : SysState
  serialRest : List Char
  writes : List (Pin × Level)
  keyPressed : Bool
deriving DecidableEq, Repr

/-- One iteration of `loop` (lines 85-139): read the clock and the raw
button level, mirror the button onto `BUTTON_LED`, on a press edge drive
`PI_LED` high and emit the spacebar press (else drive `PI_LED` low),
store the sample into `lastState`, then — `if (Serial.available() > 0)` —
read ONE byte and dispatch it through the switch, and finally run
`updateBlink` on both players with the `now` read at the top. -/
def loopIter (s : SysState) (inp : LoopIn) : LoopOut :=
  let mirror : Pin × Level := (Pin.BUTTON_LED, mirrorWrite inp.raw)
  let edge := pressEdge inp.raw s.lastState
  let piWrite : Pin × Level := (Pin.PI_LED, if edge then Level.High else Level.Low)
  let s1 : SysState := { s with lastState := inp.raw }
  let afterCmd : SysState × List (Pin × Level) × List Char :=
    match inp.serial with
    | [] => (s1, [], [])
    | c :: rest =>
        let r := handleCommand s1 c inp.nowCmd
        (r.1, r.2, rest)
  let s2 := afterCmd.1
  let r1 := updateBlink s2.p1 inp.now
  let r2 := updateBlink s2.p2 inp.now
  { state := { s2 with p1 := r1.1, p2 := r2.1 },
    serialRest := afterCmd.2.2,
    writes := mirror :: piWrite :: (afterCmd.2.1 ++
      r1.2.map (fun l => (Pin.P1_LED, l)) ++ r2.2.map (fun l => (Pin.P2_LED, l))),
    keyPressed := edge }

end PicoButton

namespace PicoButton

/-! ### Helper lemmas shared by the claim theorems -/

/-- Wrap-around subtraction agrees with `Nat` subtraction when the true
difference is non-negative and below the 32-bit modulus. -/
theorem usub_eq (a b : Nat) (hb : b ≤ a) (h : a - b < U32) : usub a b = a - b := by
  unfold usub U32 at *
  omega

/-- Every blink interval is at most 500 ms. -/
theorem modeToInterval_le_500 (m : LedMode) : modeToInterval m ≤ 500 := by
  cases m <;> simp [modeToInterval]

/-- Blink modes have a positive toggle interval. -/
theorem modeToInterval_pos (m : LedMode)
    (hb : m = LedMode.BLINK_1HZ ∨ m = LedMode.BLINK_2HZ ∨ m = LedMode.BLINK_4HZ) :
    0 < modeToInterval m := by
  rcases hb with h | h | h <;> subst h <;> simp [modeToInterval]

/-- Ticking via `updateBlink` does nothing in the static modes. -/
theorem updateBlink_static (pl : PlayerLed) (n : Nat)
    (h : pl.mode = LedMode.OFF_MODE ∨ pl.mode = LedMode.SOLID_ON) :
    updateBlink pl n = (pl, []) := by
  rw [updateBlink, if_neg]
  rcases h with h | h <;> rw [h] <;> simp

/-- In a blink mode, a tick strictly before one interval has elapsed is
a no-op with no write. -/
theorem updateBlink_noop_of_lt (pl : PlayerLed) (n : Nat)
    (hb : pl.mode = LedMode.BLINK_1HZ ∨ pl.mode = LedMode.BLINK_2HZ ∨
      pl.mode = LedMode.BLINK_4HZ)
    (h1 : pl.lastToggleMs ≤ n) (h2 : n - pl.lastToggleMs < modeToInterval pl.mode) :
    updateBlink pl n = (pl, []) := by
  rw [updateBlink, if_pos hb]
  simp only
  rw [usub_eq n pl.lastToggleMs h1
    (lt_of_lt_of_le h2 (le_trans (modeToInterval_le_500 pl.mode) (by norm_num [U32])))]
  rw [if_neg (by omega)]

/-- In a blink mode, a tick at or past one interval flips the level,
writes it, and records the tick time. -/
theorem updateBlink_flip_of_ge (pl : PlayerLed) (n : Nat)
    (hb : pl.mode = LedMode.BLINK_1HZ ∨ pl.mode = LedMode.BLINK_2HZ ∨
      pl.mode = LedMode.BLINK_4HZ)
    (h1 : pl.lastToggleMs ≤ n) (h2 : n - pl.lastToggleMs < U32)
    (h3 : modeToInterval pl.mode ≤ n - pl.lastToggleMs) :
    updateBlink pl n =
      ({ pl with currentLevel := flip pl.currentLevel, lastToggleMs := n },
        [flip pl.currentLevel]) := by
  rw [updateBlink, if_pos hb]
  simp only
  rw [usub_eq n pl.lastToggleMs h1 h2]
  rw [if_pos h3]
  simp [flip]

/-- Setting a blink mode only writes the mode and resets the toggle
timestamp; the level is untouched and nothing is written to the pin. -/
theorem setMode_blink (pl : PlayerLed) (m : LedMode) (T : Nat)
    (hb : m = LedMode.BLINK_1HZ ∨ m = LedMode.BLINK_2HZ ∨ m = LedMode.BLINK_4HZ) :
    setMode pl m T = ({ pl with mode := m, lastToggleMs := T }, []) := by
  rcases hb with h | h | h <;> subst h <;> rfl

end PicoButton

namespace PicoButton

/-! ### Claim theorems -/

/-- C1: for an indicator in a blink mode (periods 500 / 250 / 125 ms for
1 Hz / 2 Hz / 4 Hz), `updateBlink` flips the level, writes it to the
output and sets `lastToggleMs := now` exactly when `now - lastToggleMs`
has reached the period, and performs exactly one flip per call even when
several periods have elapsed; below the period it changes nothing and
writes nothing. -/
theorem tick_blink_flip_iff (pl : PlayerLed) (now : Nat)
    (hb : pl.mode = LedMode.BLINK_1HZ ∨ pl.mode = LedMode.BLINK_2HZ ∨
      pl.mode = LedMode.BLINK_4HZ)
    (hle : pl.lastToggleMs ≤ now) (hspan : now - pl.lastToggleMs < U32) :
    modeToInterval LedMode.BLINK_1HZ = 500 ∧
    modeToInterval LedMode.BLINK_2HZ = 250 ∧
    modeToInterval LedMode.BLINK_4HZ = 125 ∧
    (modeToInterval pl.mode ≤ now - pl.lastToggleMs →
      updateBlink pl now =
        ({ pl with currentLevel := flip pl.currentLevel, lastToggleMs := now },
          [flip pl.currentLevel])) ∧
    (now - pl.lastToggleMs < modeToInterval pl.mode →
      updateBlink pl now = (pl, [])) :=
  ⟨rfl, rfl, rfl,
   fun hge => updateBlink_flip_of_ge pl now hb hle hspan hge,
   fun hlt => updateBlink_noop_of_lt pl now hb hle hlt⟩

/-- Witness for C1: a 1 Hz indicator ticked 1200 ms (more than two
periods) after its last toggle flips exactly once; ticked at 499 ms it
does nothing. -/
theorem tick_blink_flip_iff_witness :
    updateBlink ⟨LedMode.BLINK_1HZ, 0, Level.Low⟩ 1200 =
      (⟨LedMode.BLINK_1HZ, 1200, Level.High⟩, [Level.High]) ∧
    updateBlink ⟨LedMode.BLINK_1HZ, 0, Level.Low⟩ 499 =
      (⟨LedMode.BLINK_1HZ, 0, Level.Low⟩, []) :=
  ⟨(tick_blink_flip_iff ⟨LedMode.BLINK_1HZ, 0, Level.Low⟩ 1200 (Or.inl rfl)
      (by decide) (by decide)).2.2.2.1 (by decide),
   (tick_blink_flip_iff ⟨LedMode.BLINK_1HZ, 0, Level.Low⟩ 499 (Or.inl rfl)
      (by decide) (by decide)).2.2.2.2 (by decide)⟩

/-- C2: `setMode` to a blink mode at clock reading `T` leaves the level
unchanged and writes nothing, only setting the mode and resetting
`lastToggleMs` to `T`; the next flip then happens exactly one period
after `T`: a tick at `T + p - 1` is a no-op and a tick at `T + p` flips
— for any prior mode, level and partial interval. -/
theorem set_blink_mode_schedules_next_flip (pl : PlayerLed) (m : LedMode) (T : Nat)
    (hb : m = LedMode.BLINK_1HZ ∨ m = LedMode.BLINK_2HZ ∨ m = LedMode.BLINK_4HZ)
    (hT : T + modeToInterval m < U32) :
    setMode pl m T = ({ pl with mode := m, lastToggleMs := T }, []) ∧
    updateBlink { pl with mode := m, lastToggleMs := T } (T + modeToInterval m - 1)
      = ({ pl with mode := m, lastToggleMs := T }, []) ∧
    updateBlink { pl with mode := m, lastToggleMs := T } (T + modeToInterval m)
      = ({ pl with
            mode := m,
            lastToggleMs := T + modeToInterval m,
            currentLevel := flip pl.currentLevel }, [flip pl.currentLevel]) := by
  have hp : 0 < modeToInterval m := modeToInterval_pos m hb
  refine ⟨setMode_blink pl m T hb, ?_, ?_⟩
  · exact updateBlink_noop_of_lt _ _ (by simpa using hb)
      (show T ≤ T + modeToInterval m - 1 by omega)
      (show T + modeToInterval m - 1 - T < modeToInterval m by omega)
  · have h := updateBlink_flip_of_ge { pl with mode := m, lastToggleMs := T }
      (T + modeToInterval m) (by simpa using hb)
      (show T ≤ T + modeToInterval m by omega)
      (show T + modeToInterval m - T < U32 by omega)
      (show modeToInterval m ≤ T + modeToInterval m - T by omega)
    simpa using h

/-- Witness for C2: switching an indicator from `BLINK_1HZ` (last toggle
at 3 ms, level `High`) to `BLINK_2HZ` at 403 ms keeps the level, writes
nothing, and reschedules: no flip at 652 ms, flip at 653 ms. -/
theorem set_blink_mode_schedules_next_flip_witness :
    setMode ⟨LedMode.BLINK_1HZ, 3, Level.High⟩ LedMode.BLINK_2HZ 403
      = (⟨LedMode.BLINK_2HZ, 403, Level.High⟩, []) ∧
    updateBlink ⟨LedMode.BLINK_2HZ, 403, Level.High⟩ 652
      = (⟨LedMode.BLINK_2HZ, 403, Level.High⟩, []) ∧
    updateBlink ⟨LedMode.BLINK_2HZ, 403, Level.High⟩ 653
      = (⟨LedMode.BLINK_2HZ, 653, Level.Low⟩, [Level.Low]) :=
  set_blink_mode_schedules_next_flip ⟨LedMode.BLINK_1HZ, 3, Level.High⟩
    LedMode.BLINK_2HZ 403 (Or.inr (Or.inl rfl)) (by decide)

/-- C8: in a blink mode, any sequence of ticks whose clock values are
all strictly below one period past `lastToggleMs` leaves the indicator
exactly as it was and writes nothing to the output. -/
theorem tick_below_threshold_noop (pl : PlayerLed) (nows : List Nat)
    (hb : pl.mode = LedMode.BLINK_1HZ ∨ pl.mode = LedMode.BLINK_2HZ ∨
      pl.mode = LedMode.BLINK_4HZ)
    (h : ∀ n ∈ nows, pl.lastToggleMs ≤ n ∧
      n - pl.lastToggleMs < modeToInterval pl.mode) :
    runTicks pl nows = (pl, []) := by
  induction nows with
  | nil => rfl
  | cons n rest ih =>
      have hn := h n (List.mem_cons_self n rest)
      have hone : updateBlink pl n = (pl, []) :=
        updateBlink_noop_of_lt pl n hb hn.1 hn.2
      rw [runTicks]
      simp only [hone]
      simp [ih (fun x hx => h x (List.mem_cons_of_mem n hx))]

/-- Witness for C8: a 4 Hz indicator last toggled at 1000 ms, ticked
repeatedly at 1000, 1060, 1124 and 1124 ms (all less than 125 ms after
the last toggle), is left untouched with no writes. -/
theorem tick_below_threshold_noop_witness :
    runTicks ⟨LedMode.BLINK_4HZ, 1000, Level.High⟩ [1000, 1060, 1124, 1124] =
      (⟨LedMode.BLINK_4HZ, 1000, Level.High⟩, []) :=
  tick_below_threshold_noop ⟨LedMode.BLINK_4HZ, 1000, Level.High⟩
    [1000, 1060, 1124, 1124] (Or.inr (Or.inr rfl)) (by decide)

/-- C9: `setMode` to a blink mode touches only the `mode` and
`lastToggleMs` fields and writes nothing, so the blink phase inherits
the prior level: ticks before one period keep the old level, and the
first flip goes `Low → High` when the indicator came in `Low` (e.g. from
`Off`) and `High → Low` when it came in `High` (e.g. from `Solid`). -/
theorem set_blink_mode_frame_phase (pl : PlayerLed) (m : LedMode) (T : Nat)
    (hb : m = LedMode.BLINK_1HZ ∨ m = LedMode.BLINK_2HZ ∨ m = LedMode.BLINK_4HZ)
    (hT : T + modeToInterval m < U32) :
    setMode pl m T = ({ pl with mode := m, lastToggleMs := T }, []) ∧
    (∀ n, T ≤ n → n - T < modeToInterval m →
      updateBlink { pl with mode := m, lastToggleMs := T } n
        = ({ pl with mode := m, lastToggleMs := T }, [])) ∧
    (pl.currentLevel = Level.Low →
      (updateBlink { pl with mode := m, lastToggleMs := T }
        (T + modeToInterval m)).1.currentLevel = Level.High) ∧
    (pl.currentLevel = Level.High →
      (updateBlink { pl with mode := m, lastToggleMs := T }
        (T + modeToInterval m)).1.currentLevel = Level.Low) := by
  have hp : 0 < modeToInterval m := modeToInterval_pos m hb
  have hflip := updateBlink_flip_of_ge { pl with mode := m, lastToggleMs := T }
    (T + modeToInterval m) (by simpa using hb)
    (show T ≤ T + modeToInterval m by omega)
    (show T + modeToInterval m - T < U32 by omega)
    (show modeToInterval m ≤ T + modeToInterval m - T by omega)
  refine ⟨setMode_blink pl m T hb, ?_, ?_, ?_⟩
  · intro n hTn hlt
    exact updateBlink_noop_of_lt _ _ (by simpa using hb) (by simpa using hTn)
      (by simpa using hlt)
  · intro hlow
    rw [hflip]
    simp [flip, hlow]
  · intro hhigh
    rw [hflip]
    simp [flip, hhigh]

/-- Witness for C9: entering `BLINK_1HZ` from `Solid`/`High` at 1000 ms
keeps `High` (no write), still `High` at 1250 ms, and first flips to
`Low` at 1500 ms. -/
theorem set_blink_mode_frame_phase_witness :
    setMode ⟨LedMode.SOLID_ON, 42, Level.High⟩ LedMode.BLINK_1HZ 1000
      = (⟨LedMode.BLINK_1HZ, 1000, Level.High⟩, []) ∧
    updateBlink ⟨LedMode.BLINK_1HZ, 1000, Level.High⟩ 1250
      = (⟨LedMode.BLINK_1HZ, 1000, Level.High⟩, []) ∧
    (updateBlink ⟨LedMode.BLINK_1HZ, 1000, Level.High⟩ 1500).1.currentLevel
      = Level.Low :=
  have h := set_blink_mode_frame_phase ⟨LedMode.SOLID_ON, 42, Level.High⟩
    LedMode.BLINK_1HZ 1000 (Or.inl rfl) (by decide)
  ⟨h.1, h.2.1 1250 (by decide) (by decide), h.2.2.2 rfl⟩

end PicoButton

namespace PicoButton

/-- C4: `setMode Off` immediately forces the level to `Low` and writes
`Low`; `setMode Solid` forces `High` and writes `High`; thereafter any
sequence of ticks, at any clock values, changes nothing and writes
nothing, so the level stays constant until the next `setMode` —
`updateBlink` is a no-op in the static modes. -/
theorem static_mode_level_constant (pl : PlayerLed) (T : Nat) (nows : List Nat) :
    setMode pl LedMode.OFF_MODE T
      = ({ pl with
            mode := LedMode.OFF_MODE,
            lastToggleMs := T,
            currentLevel := Level.Low }, [Level.Low]) ∧
    setMode pl LedMode.SOLID_ON T
      = ({ pl with
            mode := LedMode.SOLID_ON,
            lastToggleMs := T,
            currentLevel := Level.High }, [Level.High]) ∧
    runTicks (setMode pl LedMode.OFF_MODE T).1 nows
      = ((setMode pl LedMode.OFF_MODE T).1, []) ∧
    runTicks (setMode pl LedMode.SOLID_ON T).1 nows
      = ((setMode pl LedMode.SOLID_ON T).1, []) ∧
    (pl.mode = LedMode.OFF_MODE ∨ pl.mode = LedMode.SOLID_ON →
      runTicks pl nows = (pl, [])) := by
  have hstatic : ∀ q : PlayerLed,
      q.mode = LedMode.OFF_MODE ∨ q.mode = LedMode.SOLID_ON →
      runTicks q nows = (q, []) := by
    induction nows with
    | nil => intro q _; rfl
    | cons n rest ih =>
        intro q hq
        rw [runTicks]
        simp only [updateBlink_static q n hq]
        simp [ih q hq]
  exact ⟨rfl, rfl, hstatic _ (Or.inl rfl), hstatic _ (Or.inr rfl), hstatic pl⟩

/-- C5: the mirrored output always equals the raw sample, the press edge
fires exactly on a `Low → High` transition, and the raw sequence
`Low, Low, High, High, Low` yields edges
`false, false, true, false, false` with the same levels mirrored. -/
theorem button_mirror_and_edge :
    (∀ raw prev : Level, mirrorWrite raw = raw ∧
      (pressEdge raw prev = true ↔ prev = Level.Low ∧ raw = Level.High)) ∧
    edgeScan initialLastState
        [Level.Low, Level.Low, Level.High, Level.High, Level.Low]
      = [false, false, true, false, false] ∧
    List.map mirrorWrite [Level.Low, Level.Low, Level.High, Level.High, Level.Low]
      = [Level.Low, Level.Low, Level.High, Level.High, Level.Low] := by
  refine ⟨?_, rfl, rfl⟩
  intro raw prev
  cases raw <;> cases prev <;> simp [mirrorWrite, pressEdge]

/-- C6: dispatching `Y` (both solid) and then `b` (P2 off) leaves P1 in
`SOLID_ON` at level `High` and P2 in `OFF_MODE` at level `Low`: the
later command for a target wins and `Y` does not block the per-player
override. -/
theorem later_command_wins_Y_then_b (s : SysState) (t1 t2 : Nat) :
    (handleCommand (handleCommand s 'Y' t1).1 'b' t2).1.p1.mode = LedMode.SOLID_ON ∧
    (handleCommand (handleCommand s 'Y' t1).1 'b' t2).1.p1.currentLevel = Level.High ∧
    (handleCommand (handleCommand s 'Y' t1).1 'b' t2).1.p2.mode = LedMode.OFF_MODE ∧
    (handleCommand (handleCommand s 'Y' t1).1 'b' t2).1.p2.currentLevel = Level.Low :=
  ⟨rfl, rfl, rfl, rfl⟩

/-- C7: a byte outside the command table hits the `default` arm: the
dispatch returns the state unchanged and writes nothing. -/
theorem unknown_byte_ignored (s : SysState) (c : Char) (t : Nat)
    (h : c ∉ commandTable) :
    handleCommand s c t = (s, []) := by
  simp only [commandTable, List.mem_cons, List.not_mem_nil, or_false, not_or] at h
  simp [handleCommand, h.1, h.2.1, h.2.2.1, h.2.2.2.1, h.2.2.2.2.1, h.2.2.2.2.2.1,
    h.2.2.2.2.2.2.1, h.2.2.2.2.2.2.2.1, h.2.2.2.2.2.2.2.2.1, h.2.2.2.2.2.2.2.2.2.1,
    h.2.2.2.2.2.2.2.2.2.2.1, h.2.2.2.2.2.2.2.2.2.2.2]

/-- Witness for C7: the unrecognized byte `z` leaves a concrete system
state untouched and produces no writes. -/
theorem unknown_byte_ignored_witness :
    handleCommand
        ⟨⟨LedMode.BLINK_2HZ, 7, Level.High⟩, ⟨LedMode.OFF_MODE, 0, Level.Low⟩,
          Level.High⟩ 'z' 99
      = (⟨⟨LedMode.BLINK_2HZ, 7, Level.High⟩, ⟨LedMode.OFF_MODE, 0, Level.Low⟩,
          Level.High⟩, []) :=
  unknown_byte_ignored
    ⟨⟨LedMode.BLINK_2HZ, 7, Level.High⟩, ⟨LedMode.OFF_MODE, 0, Level.Low⟩,
      Level.High⟩ 'z' 99 (by decide)

end PicoButton

namespace PicoButton

/-- C3 counterexample: with the two bytes `A` then `a` both available, a
single loop iteration consumes only `A` — the byte `a` is still buffered
afterwards (`serialRest = ['a']`) and P1 ends the iteration in
`SOLID_ON`, which `a` would have overridden to `OFF_MODE` had every
available byte been interpreted in that same iteration. -/
theorem loop_iteration_does_not_drain_serial :
    (loopIter
        ⟨⟨LedMode.OFF_MODE, 0, Level.Low⟩, ⟨LedMode.OFF_MODE, 0, Level.Low⟩,
          Level.High⟩
        ⟨5, Level.Low, 5, ['A', 'a']⟩).serialRest = ['a'] ∧
    (loopIter
        ⟨⟨LedMode.OFF_MODE, 0, Level.Low⟩, ⟨LedMode.OFF_MODE, 0, Level.Low⟩,
          Level.High⟩
        ⟨5, Level.Low, 5, ['A', 'a']⟩).state.p1.mode = LedMode.SOLID_ON := by
  constructor <;> rfl

/-- C3 (amended): each loop iteration reads and interprets at most one
command byte — the first available one; the iteration behaves exactly as
if only that byte were buffered, and all later bytes remain unread in
arrival order for subsequent iterations. -/
theorem loop_reads_at_most_one_byte (s : SysState) (inp : LoopIn) :
    (loopIter s inp).serialRest = inp.serial.drop 1 ∧
    (loopIter s inp).state
      = (loopIter s ⟨inp.now, inp.raw, inp.nowCmd, inp.serial.take 1⟩).state ∧
    (loopIter s inp).writes
      = (loopIter s ⟨inp.now, inp.raw, inp.nowCmd, inp.serial.take 1⟩).writes ∧
    (loopIter s inp).keyPressed
      = (loopIter s ⟨inp.now, inp.raw, inp.nowCmd, inp.serial.take 1⟩).keyPressed := by
  obtain ⟨now, raw, nowCmd, serial⟩ := inp
  cases serial with
  | nil => exact ⟨rfl, rfl, rfl, rfl⟩
  | cons c rest => exact ⟨rfl, rfl, rfl, rfl⟩

/-- A reported press edge at position `i` of an `edgeScan` run means the
previous sample at that point was `Low`: at `i = 0` the seed sample, and
at `i > 0` the raw sample of the preceding iteration. -/
theorem edgeScan_true_prev_low (raws : List Level) (prev : Level) (i : Nat)
    (h : (edgeScan prev raws).getD i false = true) :
    (i = 0 → prev = Level.Low) ∧
    (0 < i → raws.getD (i - 1) Level.High = Level.Low) := by
  induction raws generalizing prev i with
  | nil => simp [edgeScan, List.getD] at h
  | cons r rest ih =>
      cases i with
      | zero =>
          refine ⟨fun _ => ?_, fun h0 => absurd h0 (by omega)⟩
          rw [edgeScan] at h
          simp only [List.getD_cons_zero] at h
          cases r <;> cases prev <;> simp [pressEdge] at h ⊢
      | succ k =>
          rw [edgeScan] at h
          simp only [List.getD_cons_succ] at h
          have hk := ih r k h
          refine ⟨fun h0 => absurd h0 (by omega), fun _ => ?_⟩
          cases k with
          | zero => simpa using hk.1 rfl
          | succ k2 => simpa using hk.2 (Nat.succ_pos k2)

/-- C10: the stored previous button sample starts at `High`, so a raw
`High` on the very first iteration produces no keypress, and an edge at
any scan position implies some strictly earlier iteration sampled `Low`. -/
theorem press_edge_needs_prior_low (s : SysState) (inp : LoopIn)
    (raws : List Level) (i : Nat)
    (hs : s.lastState = initialLastState) (hraw : inp.raw = Level.High)
    (hi : (edgeScan initialLastState raws).getD i false = true) :
    initialLastState = Level.High ∧
    (loopIter s inp).keyPressed = false ∧
    ∃ j < i, raws.getD j Level.High = Level.Low := by
  have hscan := edgeScan_true_prev_low raws initialLastState i hi
  have hi0 : i ≠ 0 := by
    intro h0
    have := hscan.1 h0
    simp [initialLastState] at this
  refine ⟨rfl, ?_, i - 1, by omega, hscan.2 (by omega)⟩
  simp [loopIter, hs, hraw, pressEdge, initialLastState]

/-- Witness for C10: with the raw samples `High, Low, High` the edge
fires at position 2, preceded by the `Low` sample at position 1; and a
first iteration that reads `High` against the startup `lastState = High`
emits no keypress. -/
theorem press_edge_needs_prior_low_witness :
    initialLastState = Level.High ∧
    (loopIter
        ⟨⟨LedMode.OFF_MODE, 0, Level.Low⟩, ⟨LedMode.OFF_MODE, 0, Level.Low⟩,
          Level.High⟩
        ⟨0, Level.High, 0, []⟩).keyPressed = false ∧
    ∃ j < 2, [Level.High, Level.Low, Level.High].getD j Level.High = Level.Low :=
  press_edge_needs_prior_low
    ⟨⟨LedMode.OFF_MODE, 0, Level.Low⟩, ⟨LedMode.OFF_MODE, 0, Level.Low⟩,
      Level.High⟩
    ⟨0, Level.High, 0, []⟩ [Level.High, Level.Low, Level.High] 2
    rfl rfl (by decide)

end PicoButton
